import Mathlib

/-!
Shallow embedding of the ads-asset-agent client (src/lib/composio.ts,
src/app/actions.ts, src/app/page.tsx).

Modelling conventions:
* Every awaited external call (Composio tool execution, the direct Gemini
  vision call, `JSON.parse`, `fileToBase64`) is an oracle parameter of type
  `Except String _` (or a function producing one): `.error e` models a
  rejected promise / thrown exception carrying message `e`.
* JavaScript truthiness of strings (`a || b`, where `undefined` and `""`
  are falsy) is modelled by `jsOrS` / `jsOr2` / `jsOrO`; an absent field of
  a loosely-typed result object is `Option.none`.
* Prompt strings and other tool-call arguments only influence the outcome
  of the external call, so they are absorbed into the call oracle and not
  repeated as parameters.
* React state updates of `page.tsx` are explicit state passing on `UIState`;
  `setCurrentPhase` calls are additionally recorded as a trace
  (`List Phase`) so that the progress-indicator behaviour is observable.
-/

set_option linter.unusedVariables false

/-- JavaScript `a || b` for strings: `""` is falsy. -/
def jsOrS (a b : String) : String := if a = "" then b else a

/-- JavaScript `a || b` where `a` may be `undefined` and the result is a
definite string. -/
def jsOr2 (a : Option String) (b : String) : String :=
  match a with
  | some s => jsOrS s b
  | none => b

/-- JavaScript `a || b` where both sides may be `undefined`; the last falsy
value passes through unchanged. -/
def jsOrO (a b : Option String) : Option String :=
  match a with
  | some s => if s = "" then b else some s
  | none => b

-- ===========================================================================
-- src/lib/composio.ts
-- ===========================================================================

/-- The result object delivered by `composio.tools.execute`, with the
payload type `D` abstract. -/
structure ToolResult (D : Type) where
  successful : Bool
  error : Option String
  data : D
  deriving Repr

/-- Message of the error thrown for an unsuccessful result:
`result.error || ("Tool " + toolName + " failed")`. -/
def toolFailMsg (toolName : String) (e : Option String) : String :=
  jsOr2 e ("Tool " ++ toolName ++ " failed")

/-- The `executeTool` of src/lib/composio.ts: `call` is the outcome of
`composio.tools.execute` (a thrown error or a `ToolResult`).  The catch
block only logs and rethrows, so thrown errors pass through. -/
def executeTool {D : Type} (toolName : String)
    (call : Except String (ToolResult D)) : Except String D :=
  match call with
  | .error e => .error e
  | .ok r =>
    if r.successful then .ok r.data
    else .error (toolFailMsg toolName r.error)

-- ===========================================================================
-- JSON extraction: the regex  \{[\s\S]*\}  of actions.ts
-- ===========================================================================

def lbrace : Char := Char.ofNat 123

def rbrace : Char := Char.ofNat 125

/-- Index of the first occurrence of `c`. -/
def firstIdxOf (c : Char) : List Char → Option Nat
  | [] => none
  | x :: xs => if x = c then some 0 else (firstIdxOf c xs).map (· + 1)

/-- Index of the last occurrence of `c`. -/
def lastIdxOf (c : Char) (l : List Char) : Option Nat :=
  match firstIdxOf c l.reverse with
  | some k => some (l.length - 1 - k)
  | none => none

/-- The `text.match(regex)` for the greedy regex `\x7b[\s\S]*\x7d`: the match,
when one exists, runs from the first opening brace to the last closing
brace of the string (the regex engine starts at the leftmost opening brace
and the greedy middle extends to the last closing brace; there is no match
when no closing brace follows any opening brace). -/
def extractJson (s : String) : Option String :=
  match firstIdxOf lbrace s.data, lastIdxOf rbrace s.data with
  | some i, some j =>
    if i < j then some (String.mk ((s.data.drop i).take (j + 1 - i))) else none
  | _, _ => none

-- ===========================================================================
-- Data types of src/app/actions.ts
-- ===========================================================================

/-- The `BrandAnalysis` of actions.ts. -/
structure BrandAnalysis where
  colors : List String
  mood : String
  subject : String
  brandName : Option String
  slogan : Option String
  hasLogo : Option Bool
  deriving DecidableEq, Repr

/-- The `AssetSpecs` of actions.ts.  The declared TS type has plain string
arrays, but the value actually returned may be any parsed JSON object, so
each list may be absent. -/
structure AssetSpecs where
  socialPrompts : Option (List String)
  portrait34Prompts : Option (List String)
  videoPrompts : Option (List String)
  squarePrompts : Option (List String)
  landscapePrompts : Option (List String)
  deriving DecidableEq, Repr

/-- The `AdCopy` of actions.ts (all fields optional). -/
structure AdCopy where
  headline : Option String
  tagline : Option String
  description : Option String
  cta : Option String
  hashtags : Option (List String)
  instagramCaption : Option String
  facebookCaption : Option String
  twitterCaption : Option String
  linkedinCaption : Option String
  deriving DecidableEq, Repr

/-- The `counts` record passed to `generateSpecsAction`. -/
structure Counts where
  portrait : Nat
  portrait34 : Nat
  square : Nat
  landscape : Nat
  video : Nat
  deriving DecidableEq, Repr

/-- Payload shape read by `generateSpecsAction` / `generateAdCopyAction`:
`result?.text || result?.content || JSON.stringify(result)`.  The
`stringified` field carries `JSON.stringify(result)` (a function of the
whole opaque payload, kept as data). -/
structure ToolData where
  text : Option String
  content : Option String
  stringified : String
  deriving DecidableEq, Repr

/-- The content string a generation action extracts from the tool data. -/
def contentOf (d : ToolData) : String :=
  jsOr2 d.text (jsOr2 d.content d.stringified)

-- ===========================================================================
-- analyzeBrandAction
-- ===========================================================================

/-- The `analyzeBrandAction` of actions.ts.  `apiKey` is `GEMINI_API_KEY`;
`visionCall` is the outcome of the direct Gemini `generateContent` call,
carrying `response.text` (possibly `undefined`); `parse` is `JSON.parse`
restricted to this call site (either a `BrandAnalysis`-shaped value or a
thrown `SyntaxError` message).  The data-URL prefix handling only shapes
the request and is absorbed into `visionCall`.  Both the no-JSON throw and
any caught error are rethrown wrapped in a "Brand analysis failed:" text,
so the no-JSON message gets the wrapper twice. -/
def analyzeBrandAction (apiKey : Option String)
    (visionCall : Except String (Option String))
    (parse : String → Except String BrandAnalysis) :
    Except String BrandAnalysis :=
  match apiKey with
  | none => .error "GEMINI_API_KEY environment variable is required for image analysis"
  | some _ =>
    match visionCall with
    | .error e => .error ("Brand analysis failed: " ++ e ++ ". Check console for details.")
    | .ok t =>
      let responseText := jsOr2 t ""
      match extractJson responseText with
      | some sub =>
        match parse sub with
        | .ok v => .ok v
        | .error m => .error ("Brand analysis failed: " ++ m ++ ". Check console for details.")
      | none =>
        .error ("Brand analysis failed: Brand analysis failed: Gemini did not return valid JSON. Check the console for the raw response.. Check console for details.")

-- ===========================================================================
-- generateSpecsAction / generateAdCopyAction
-- ===========================================================================

/-- The canned fallback `AssetSpecs` (identical in the no-JSON branch and
the catch branch of `generateSpecsAction`). -/
def fallbackSpecs (c : Counts) : AssetSpecs :=
  { socialPrompts := some (List.replicate c.portrait "Vibrant lifestyle shot")
    portrait34Prompts := some (List.replicate c.portrait34 "Elegant portrait composition")
    videoPrompts := some (List.replicate c.video "Cinematic wide shot")
    squarePrompts := some (List.replicate c.square "Minimalist product focus")
    landscapePrompts := some (List.replicate c.landscape "Wide cinematic product shot") }

/-- The `generateSpecsAction` of actions.ts.  `call` is the outcome of the
underlying `composio.tools.execute` for `GEMINI_GENERATE_CONTENT` (the
brand context, user instruction and counts shape only the prompt, hence
the call oracle); `parse` is `JSON.parse` at this call site.  A thrown
parse error lands in the catch block, which returns the same fallback as
the no-JSON branch. -/
def generateSpecsAction (c : Counts)
    (call : Except String (ToolResult ToolData))
    (parse : String → Except String AssetSpecs) : Except String AssetSpecs :=
  match executeTool "GEMINI_GENERATE_CONTENT" call with
  | .error _ => .ok (fallbackSpecs c)
  | .ok d =>
    match extractJson (contentOf d) with
    | some sub =>
      match parse sub with
      | .ok specs => .ok specs
      | .error _ => .ok (fallbackSpecs c)
    | none => .ok (fallbackSpecs c)

/-- Fallback `AdCopy` returned when the extracted text contains no JSON
object (depends on the brand context). -/
def adCopyNoJsonFallback (ctx : BrandAnalysis) : AdCopy :=
  { headline := some ("Discover " ++ jsOr2 ctx.brandName "Excellence")
    tagline := some (jsOrS ctx.mood "Premium" ++ " Quality")
    description := some "Experience exceptional quality. Crafted with care."
    cta := some "Learn More"
    hashtags := some ["#premium", "#quality", "#lifestyle"]
    instagramCaption := none
    facebookCaption := none
    twitterCaption := none
    linkedinCaption := none }

/-- Fallback `AdCopy` returned by the catch block of
`generateAdCopyAction`. -/
def adCopyCatchFallback : AdCopy :=
  { headline := some "Discover Excellence"
    tagline := none
    description := some "Experience exceptional quality."
    cta := some "Learn More"
    hashtags := some ["#premium", "#quality"]
    instagramCaption := none
    facebookCaption := none
    twitterCaption := none
    linkedinCaption := none }

/-- The `generateAdCopyAction` of actions.ts. -/
def generateAdCopyAction (ctx : BrandAnalysis)
    (call : Except String (ToolResult ToolData))
    (parse : String → Except String AdCopy) : Except String AdCopy :=
  match executeTool "GEMINI_GENERATE_CONTENT" call with
  | .error _ => .ok adCopyCatchFallback
  | .ok d =>
    match extractJson (contentOf d) with
    | some sub =>
      match parse sub with
      | .ok v => .ok v
      | .error _ => .ok adCopyCatchFallback
    | none => .ok (adCopyNoJsonFallback ctx)

-- ===========================================================================
-- generateAssetAction (image generation)
-- ===========================================================================

/-- An object holding an optional `s3url` field. -/
structure S3Holder where
  s3url : Option String
  deriving DecidableEq, Repr

/-- The nested `data` object of an image-generation result. -/
structure ImageInner where
  url : Option String
  image : Option S3Holder
  deriving DecidableEq, Repr

/-- Result payload of `GEMINI_GENERATE_IMAGE` as read by
`generateAssetAction`; `stringified` is `JSON.stringify(result)` used in
the error message. -/
structure ImageGenData where
  url : Option String
  image_url : Option String
  image : Option S3Holder
  data : Option ImageInner
  stringified : String
  deriving DecidableEq, Repr

/-- The `typedResult?.url || typedResult?.image_url || typedResult?.data?.url
|| typedResult?.image?.s3url || typedResult?.data?.image?.s3url`. -/
def imageUrlChain (d : ImageGenData) : Option String :=
  jsOrO d.url (jsOrO d.image_url (jsOrO ((d.data).bind ImageInner.url)
    (jsOrO ((d.image).bind S3Holder.s3url)
      (((d.data).bind ImageInner.image).bind S3Holder.s3url))))

/-- The `generateAssetAction` of actions.ts; the prompt and aspect ratio only
shape the tool arguments and are absorbed into `call`.  The catch block
rethrows. -/
def generateAssetAction (call : Except String (ToolResult ImageGenData)) :
    Except String String :=
  match executeTool "GEMINI_GENERATE_IMAGE" call with
  | .error e => .error e
  | .ok d =>
    match imageUrlChain d with
    | some s =>
      if s = "" then .error ("No image URL returned from Gemini. Result: " ++ d.stringified)
      else .ok s
    | none => .error ("No image URL returned from Gemini. Result: " ++ d.stringified)

-- ===========================================================================
-- generateVideoAction / checkVideoStatusAction / waitForVideoAction
-- ===========================================================================

/-- Result payload of `GEMINI_GENERATE_VIDEOS` as read by
`generateVideoAction`. -/
structure VideoGenData where
  operation_name : Option String
  operationName : Option String
  name : Option String
  deriving DecidableEq, Repr

/-- The `typedResult?.operation_name || typedResult?.operationName ||
typedResult?.name`. -/
def opNameChain (d : VideoGenData) : Option String :=
  jsOrO d.operation_name (jsOrO d.operationName d.name)

/-- The `generateVideoAction` of actions.ts, returning the `operationName`
payload; the prompt and aspect ratio are absorbed into `call`.  The catch
block rethrows. -/
def generateVideoAction (call : Except String (ToolResult VideoGenData)) :
    Except String String :=
  match executeTool "GEMINI_GENERATE_VIDEOS" call with
  | .error e => .error e
  | .ok d =>
    match opNameChain d with
    | some s =>
      if s = "" then .error "No operation name returned from Veo" else .ok s
    | none => .error "No operation name returned from Veo"

/-- The `video` object of a generated sample. -/
structure VideoObj where
  uri : Option String
  deriving DecidableEq, Repr

/-- One entry of `response.generatedSamples`. -/
structure VideoSample where
  video : Option VideoObj
  deriving DecidableEq, Repr

/-- The `response` object of a videos-operation result. -/
structure OpResponse where
  generatedSamples : Option (List VideoSample)
  deriving DecidableEq, Repr

/-- Result payload of `GEMINI_GET_VIDEOS_OPERATION` as read by
`checkVideoStatusAction`. -/
structure VideoStatusData where
  done : Option Bool
  status : Option String
  video_url : Option String
  url : Option String
  response : Option OpResponse
  deriving DecidableEq, Repr

/-- The `typedResult?.response?.generatedSamples?.[0]?.video?.uri`. -/
def firstSampleUri (d : VideoStatusData) : Option String :=
  ((((d.response).bind OpResponse.generatedSamples).bind List.head?).bind
    VideoSample.video).bind VideoObj.uri

/-- The `typedResult?.done || typedResult?.status === "completed"`. -/
def doneCondition (d : VideoStatusData) : Bool :=
  d.done == some true || d.status == some "completed"

/-- The `typedResult?.video_url || typedResult?.url ||
typedResult?.response?.generatedSamples?.[0]?.video?.uri`. -/
def statusUrlChain (d : VideoStatusData) : Option String :=
  jsOrO d.video_url (jsOrO d.url (firstSampleUri d))

/-- Declared status union of `checkVideoStatusAction`. -/
inductive VideoStatus
  | pending
  | processing
  | completed
  | failed
  deriving DecidableEq, Repr

/-- Return shape of `checkVideoStatusAction`. -/
structure VideoStatusResult where
  status : VideoStatus
  url : Option String
  deriving DecidableEq, Repr

/-- The `checkVideoStatusAction` of actions.ts: the catch block returns
`status: "failed"`, so the function is total. -/
def checkVideoStatusAction (call : Except String (ToolResult VideoStatusData)) :
    VideoStatusResult :=
  match executeTool "GEMINI_GET_VIDEOS_OPERATION" call with
  | .error _ => { status := VideoStatus.failed, url := none }
  | .ok d =>
    if doneCondition d then
      { status := VideoStatus.completed, url := statusUrlChain d }
    else
      { status := VideoStatus.processing, url := none }

/-- Nested `data` object of a wait-for-video result. -/
structure UrlHolder where
  url : Option String
  deriving DecidableEq, Repr

/-- Result payload of `GEMINI_WAIT_FOR_VIDEO` as read by
`waitForVideoAction`. -/
structure WaitVideoData where
  url : Option String
  video_url : Option String
  data : Option UrlHolder
  deriving DecidableEq, Repr

/-- The `typedResult?.url || typedResult?.video_url ||
typedResult?.data?.url`. -/
def waitUrlChain (d : WaitVideoData) : Option String :=
  jsOrO d.url (jsOrO d.video_url ((d.data).bind UrlHolder.url))

/-- The `waitForVideoAction` of actions.ts, returning the `url` payload; the
operation name is absorbed into `call`.  The catch block rethrows. -/
def waitForVideoAction (call : Except String (ToolResult WaitVideoData)) :
    Except String String :=
  match executeTool "GEMINI_WAIT_FOR_VIDEO" call with
  | .error e => .error e
  | .ok d =>
    match waitUrlChain d with
    | some s => if s = "" then .error "No video URL returned" else .ok s
    | none => .error "No video URL returned"

-- ===========================================================================
-- src/app/page.tsx: data model
-- ===========================================================================

/-- The four-state UI progress flag `currentPhase`. -/
inductive Phase
  | idle
  | analyzing
  | generating
  | completed
  deriving DecidableEq, Repr

/-- The `Asset["type"]`. -/
inductive AssetType
  | image
  | video
  deriving DecidableEq, Repr

/-- The `Asset["status"]`. -/
inductive AssetStatus
  | generating
  | completed
  | failed
  deriving DecidableEq, Repr

/-- The `Asset` record of page.tsx. -/
structure Asset where
  id : String
  type : AssetType
  aspectRatio : String
  status : AssetStatus
  description : String
  url : String
  deriving DecidableEq, Repr

/-- What kind of generation a pending task performs. -/
inductive TaskKind
  | image (aspectRatio : String)
  | video
  deriving DecidableEq, Repr

/-- One entry of `pendingTasks`, with the captured id, prompt and kind. -/
structure TaskSpec where
  id : String
  prompt : String
  kind : TaskKind
  deriving DecidableEq, Repr

/-- Id string of an image asset: `image-AR-NOW-I` (from the template
literal with `Date.now()`). -/
def imageId (ar : String) (now i : Nat) : String :=
  "image-" ++ ar ++ "-" ++ toString now ++ "-" ++ toString i

/-- Id string of a video asset: `video-16:9-NOW-I`. -/
def videoId (now i : Nat) : String :=
  "video-16:9-" ++ toString now ++ "-" ++ toString i

-- ===========================================================================
-- src/app/page.tsx: per-asset tasks (generateImageAsset / generateVideoAsset)
-- ===========================================================================

/-- The updater applied to one list element by `setGeneratedAssets` on
success. -/
def completeElem (id url : String) (a : Asset) : Asset :=
  if a.id = id then { a with status := AssetStatus.completed, url := url } else a

/-- The updater applied to one list element by `setGeneratedAssets` on
failure. -/
def failElem (id : String) (a : Asset) : Asset :=
  if a.id = id then { a with status := AssetStatus.failed } else a

/-- The `setGeneratedAssets(prev => prev.map(... completed ...))`. -/
def markCompleted (id url : String) (assets : List Asset) : List Asset :=
  assets.map (completeElem id url)

/-- The `setGeneratedAssets(prev => prev.map(... failed ...))`. -/
def markFailed (id : String) (assets : List Asset) : List Asset :=
  assets.map (failElem id)

/-- The `generateImageAsset` of page.tsx as a promise over the assets state:
it awaits `generateAssetAction` inside try/catch, so the task itself
always resolves (`Except.ok`). -/
def generateImageAssetE (id : String)
    (call : Except String (ToolResult ImageGenData))
    (assets : List Asset) : Except String (List Asset) :=
  match generateAssetAction call with
  | .ok url => .ok (markCompleted id url assets)
  | .error _ => .ok (markFailed id assets)

/-- The `generateVideoAsset` of page.tsx: awaits `generateVideoAction` then
`waitForVideoAction(operationName)` inside one try/catch, so the task
itself always resolves. -/
def generateVideoAssetE (id : String)
    (genCall : Except String (ToolResult VideoGenData))
    (waitCall : String → Except String (ToolResult WaitVideoData))
    (assets : List Asset) : Except String (List Asset) :=
  match (generateVideoAction genCall).bind
      (fun op => waitForVideoAction (waitCall op)) with
  | .ok url => .ok (markCompleted id url assets)
  | .error _ => .ok (markFailed id assets)

/-- Oracles for the asset-generation batch, indexed by the asset id (each
task closes over its own id/prompt, which determine the tool call it
makes). -/
structure BatchOracles where
  imageCall : String → Except String (ToolResult ImageGenData)
  videoGenCall : String → Except String (ToolResult VideoGenData)
  videoWaitCall : String → String → Except String (ToolResult WaitVideoData)

/-- Composite outcome of the awaited generation action(s) of one task. -/
def taskOutcome (o : BatchOracles) (t : TaskSpec) : Except String String :=
  match t.kind with
  | TaskKind.image _ => generateAssetAction (o.imageCall t.id)
  | TaskKind.video =>
    (generateVideoAction (o.videoGenCall t.id)).bind
      (fun op => waitForVideoAction (o.videoWaitCall t.id op))

/-- Running one pending task as the promise it is in page.tsx. -/
def runTaskE (o : BatchOracles) (t : TaskSpec) (assets : List Asset) :
    Except String (List Asset) :=
  match t.kind with
  | TaskKind.image _ => generateImageAssetE t.id (o.imageCall t.id) assets
  | TaskKind.video =>
    generateVideoAssetE t.id (o.videoGenCall t.id) (o.videoWaitCall t.id) assets

/-- The `Promise.all(pendingTasks.map(task => task()))` over the shared assets
state, as the sequence of per-task state updates; rejects iff some task
rejects. -/
def runBatchE (o : BatchOracles) : List TaskSpec → List Asset →
    Except String (List Asset)
  | [], assets => .ok assets
  | t :: ts, assets =>
    match runTaskE o t assets with
    | .ok assets2 => runBatchE o ts assets2
    | .error e => .error e

/-- Effect of one task on one element of the assets state. -/
def applyTaskElem (o : BatchOracles) (t : TaskSpec) (a : Asset) : Asset :=
  match taskOutcome o t with
  | .ok url => completeElem t.id url a
  | .error _ => failElem t.id a

/-- Effect of one task on the assets state. -/
def applyTask (o : BatchOracles) (t : TaskSpec) (assets : List Asset) :
    List Asset :=
  match taskOutcome o t with
  | .ok url => markCompleted t.id url assets
  | .error _ => markFailed t.id assets

/-- The (always reached) resolution value of the batch. -/
def runBatch (o : BatchOracles) (ts : List TaskSpec) (assets : List Asset) :
    List Asset :=
  ts.foldl (fun acc t => applyTask o t acc) assets

/-- Cumulative effect of a task list on one element of the assets state. -/
def applyAllElem (o : BatchOracles) (ts : List TaskSpec) (a : Asset) : Asset :=
  ts.foldl (fun x t => applyTaskElem o t x) a

-- ===========================================================================
-- src/app/page.tsx: fan-out of counts into assets and pending tasks
-- ===========================================================================

/-- Assets pushed by one image forEach block:
`prompts.slice(0, count).forEach(...)`. -/
def imageAssets (count now : Nat) (ar : String) (prompts : List String) :
    List Asset :=
  (prompts.take count).enum.map (fun ip =>
    { id := imageId ar now ip.1, type := AssetType.image, aspectRatio := ar,
      status := AssetStatus.generating, description := ip.2, url := "" })

/-- Tasks pushed by one image forEach block. -/
def imageTasks (count now : Nat) (ar : String) (prompts : List String) :
    List TaskSpec :=
  (prompts.take count).enum.map (fun ip =>
    { id := imageId ar now ip.1, prompt := ip.2, kind := TaskKind.image ar })

/-- Assets pushed by the video forEach block (description `[Veo] prompt`,
aspect ratio fixed 16:9). -/
def videoAssets (count now : Nat) (prompts : List String) : List Asset :=
  (prompts.take count).enum.map (fun ip =>
    { id := videoId now ip.1, type := AssetType.video, aspectRatio := "16:9",
      status := AssetStatus.generating, description := "[Veo] " ++ ip.2,
      url := "" })

/-- Tasks pushed by the video forEach block. -/
def videoTasks (count now : Nat) (prompts : List String) : List TaskSpec :=
  (prompts.take count).enum.map (fun ip =>
    { id := videoId now ip.1, prompt := ip.2, kind := TaskKind.video })

/-- The social (9:16) block: `specs.socialPrompts.slice(...)` is accessed
without a fallback, so a missing list throws a TypeError (caught by the
outer catch of `handleGenerate`). -/
def socialBlockE (c : Counts) (specs : AssetSpecs) (now : Nat) :
    Except String (List Asset × List TaskSpec) :=
  if 0 < c.portrait then
    match specs.socialPrompts with
    | none => .error "TypeError: Cannot read properties of undefined"
    | some l => .ok (imageAssets c.portrait now "9:16" l,
        imageTasks c.portrait now "9:16" l)
  else .ok ([], [])

/-- The portrait (3:4) block: `specs.portrait34Prompts ||
Array(count).fill("Elegant portrait product shot")`. -/
def portrait34Block (c : Counts) (specs : AssetSpecs) (now : Nat) :
    List Asset × List TaskSpec :=
  if 0 < c.portrait34 then
    let l := specs.portrait34Prompts.getD
      (List.replicate c.portrait34 "Elegant portrait product shot")
    (imageAssets c.portrait34 now "3:4" l, imageTasks c.portrait34 now "3:4" l)
  else ([], [])

/-- The square (1:1) block: `specs.squarePrompts.slice(...)` without a
fallback. -/
def squareBlockE (c : Counts) (specs : AssetSpecs) (now : Nat) :
    Except String (List Asset × List TaskSpec) :=
  if 0 < c.square then
    match specs.squarePrompts with
    | none => .error "TypeError: Cannot read properties of undefined"
    | some l => .ok (imageAssets c.square now "1:1" l,
        imageTasks c.square now "1:1" l)
  else .ok ([], [])

/-- The landscape (16:9) block: `specs.landscapePrompts ||
Array(count).fill("Cinematic product shot")`. -/
def landscapeBlock (c : Counts) (specs : AssetSpecs) (now : Nat) :
    List Asset × List TaskSpec :=
  if 0 < c.landscape then
    let l := specs.landscapePrompts.getD
      (List.replicate c.landscape "Cinematic product shot")
    (imageAssets c.landscape now "16:9" l, imageTasks c.landscape now "16:9" l)
  else ([], [])

/-- The video block: `specs.videoPrompts ||
Array(count).fill("Cinematic wide shot")`. -/
def videoBlock (c : Counts) (specs : AssetSpecs) (now : Nat) :
    List Asset × List TaskSpec :=
  if 0 < c.video then
    let l := specs.videoPrompts.getD
      (List.replicate c.video "Cinematic wide shot")
    (videoAssets c.video now l, videoTasks c.video now l)
  else ([], [])

/-- Lines 181-278 of page.tsx: building `assets` and `pendingTasks` in
source order (social, portrait 3:4, square, landscape, video). -/
def buildAssets (c : Counts) (specs : AssetSpecs) (now : Nat) :
    Except String (List Asset × List TaskSpec) :=
  match socialBlockE c specs now with
  | .error e => .error e
  | .ok social =>
    let p34 := portrait34Block c specs now
    match squareBlockE c specs now with
    | .error e => .error e
    | .ok square =>
      let land := landscapeBlock c specs now
      let vid := videoBlock c specs now
      .ok (social.1 ++ p34.1 ++ square.1 ++ land.1 ++ vid.1,
        social.2 ++ p34.2 ++ square.2 ++ land.2 ++ vid.2)

-- ===========================================================================
-- src/app/page.tsx: handleGenerate
-- ===========================================================================

/-- The component state of `AdsGenPage` that `handleGenerate` reads or
writes. -/
structure UIState where
  isProcessing : Bool
  currentPhase : Phase
  progress : Nat
  progressMessage : String
  uploadedImagesCount : Nat
  portraitCount : Nat
  portrait34Count : Nat
  squareCount : Nat
  landscapeCount : Nat
  videoCount : Nat
  brandContext : Option BrandAnalysis
  generatedAssets : List Asset
  adCopy : Option AdCopy
  error : Option String

/-- The `counts` object built inside `handleGenerate`. -/
def countsOf (s : UIState) : Counts :=
  { portrait := s.portraitCount, portrait34 := s.portrait34Count,
    square := s.squareCount, landscape := s.landscapeCount,
    video := s.videoCount }

/-- Oracles for one run of `handleGenerate`: outcomes of `fileToBase64`
and of every external call made by the awaited server actions. -/
structure RunOracles where
  fileRead : Except String String
  apiKey : Option String
  visionCall : Except String (Option String)
  brandParse : String → Except String BrandAnalysis
  specsCall : Except String (ToolResult ToolData)
  specsParse : String → Except String AssetSpecs
  adCopyCall : Except String (ToolResult ToolData)
  adCopyParse : String → Except String AdCopy
  batch : BatchOracles
  now : Nat

/-- The catch block of `handleGenerate` (plus the finally): sets the error
message, switches the phase back to idle and clears `isProcessing`. -/
def catchExit (s : UIState) (msg : String) (tr : List Phase) :
    UIState × List Phase :=
  ({ s with
      error := some msg, currentPhase := Phase.idle,
      isProcessing := false }, tr ++ [Phase.idle])

/-- The `handleGenerate` of page.tsx, returning the final component state and
the trace of `setCurrentPhase` calls made during the run. -/
def handleGenerate (s : UIState) (o : RunOracles) : UIState × List Phase :=
  if s.uploadedImagesCount = 0 then
    ({ s with error := some "Please upload at least one image" }, [])
  else
    let s1 : UIState :=
      { s with
        isProcessing := true, progress := 0,
        progressMessage := "Starting...", error := none,
        currentPhase := Phase.analyzing, brandContext := none,
        generatedAssets := [], adCopy := none }
    let tr1 : List Phase := [Phase.analyzing]
    let s2 : UIState :=
      { s1 with
        progressMessage := "Analyzing brand identity...", progress := 10 }
    match o.fileRead with
    | .error e => catchExit s2 e tr1
    | .ok _ =>
      match analyzeBrandAction o.apiKey o.visionCall o.brandParse with
      | .error e => catchExit s2 e tr1
      | .ok ctx =>
        let s3 : UIState :=
          { s2 with
            brandContext := some ctx, progress := 35,
            progressMessage := "Formulating cross-platform strategy..." }
        match generateSpecsAction (countsOf s) o.specsCall o.specsParse with
        | .error e => catchExit s3 e tr1
        | .ok specs =>
          let s4 : UIState :=
            { s3 with
              currentPhase := Phase.generating,
              progressMessage := "Generating assets...", progress := 50 }
          let tr2 : List Phase := tr1 ++ [Phase.generating]
          match buildAssets (countsOf s) specs o.now with
          | .error e => catchExit s4 e tr2
          | .ok pair =>
            let s5 : UIState :=
              { s4 with
                generatedAssets := pair.1, progress := 60 }
            match runBatchE o.batch pair.2 pair.1 with
            | .error e => catchExit s5 e tr2
            | .ok finalAssets =>
              let s6 : UIState :=
                { s5 with
                  generatedAssets := finalAssets,
                  progressMessage := "Generating ad copy..." }
              let s7 : UIState :=
                match generateAdCopyAction ctx o.adCopyCall o.adCopyParse with
                | .ok ac => { s6 with adCopy := some ac }
                | .error _ => s6
              ({ s7 with
                  currentPhase := Phase.completed, progress := 100,
                  progressMessage := "All assets generated successfully!",
                  isProcessing := false },
                tr2 ++ [Phase.completed])

-- ===========================================================================
-- Predicates used by the claims
-- ===========================================================================

/-- An image asset tagged with aspect ratio `ar`. -/
def pTag (ar : String) (a : Asset) : Bool :=
  decide (a.type = AssetType.image ∧ a.aspectRatio = ar)

/-- A video asset. -/
def pVid (a : Asset) : Bool :=
  decide (a.type = AssetType.video)

/-- An image generation request for aspect ratio `ar`. -/
def pTaskTag (ar : String) (t : TaskSpec) : Bool :=
  decide (t.kind = TaskKind.image ar)

/-- A video generation request. -/
def pTaskVid (t : TaskSpec) : Bool :=
  decide (t.kind = TaskKind.video)

/-- Final per-asset condition after the batch: completed with a non-empty
url, or failed. -/
def goodAsset (a : Asset) : Prop :=
  (a.status = AssetStatus.completed ∧ a.url ≠ "") ∨ a.status = AssetStatus.failed

/-- A message that starts with the flat "Brand analysis failed" text. -/
def hasBrandFailureHead (msg : String) : Prop :=
  ∃ rest : String, msg = "Brand analysis failed" ++ rest

-- ===========================================================================
-- Helper lemmas
-- ===========================================================================

theorem brandFailureHead_concat (m s : String) :
    hasBrandFailureHead ("Brand analysis failed: " ++ m ++ s) := by
  refine ⟨": " ++ m ++ s, ?_⟩
  rw [show ("Brand analysis failed: " : String) = "Brand analysis failed" ++ ": " by decide]
  rw [String.append_assoc, String.append_assoc, String.append_assoc ": " m s]

theorem replicate_shape (n : Nat) (x : String) :
    ∃ l, some (List.replicate n x) = some l ∧ l.length = n ∧ ∀ p ∈ l, p = x :=
  ⟨List.replicate n x, rfl, List.length_replicate n x,
    fun _ hp => List.eq_of_mem_replicate hp⟩

theorem generateSpecsAction_total (c : Counts)
    (call : Except String (ToolResult ToolData))
    (parse : String → Except String AssetSpecs) :
    ∃ v, generateSpecsAction c call parse = Except.ok v := by
  rcases h : executeTool "GEMINI_GENERATE_CONTENT" call with e | d
  · exact ⟨fallbackSpecs c, by simp [generateSpecsAction, h]⟩
  · rcases hj : extractJson (contentOf d) with _ | sub
    · exact ⟨fallbackSpecs c, by simp [generateSpecsAction, h, hj]⟩
    · rcases hp : parse sub with m | specs
      · exact ⟨fallbackSpecs c, by simp [generateSpecsAction, h, hj, hp]⟩
      · exact ⟨specs, by simp [generateSpecsAction, h, hj, hp]⟩

theorem generateAdCopyAction_total (ctx : BrandAnalysis)
    (call : Except String (ToolResult ToolData))
    (parse : String → Except String AdCopy) :
    ∃ v, generateAdCopyAction ctx call parse = Except.ok v := by
  rcases h : executeTool "GEMINI_GENERATE_CONTENT" call with e | d
  · exact ⟨adCopyCatchFallback, by simp [generateAdCopyAction, h]⟩
  · rcases hj : extractJson (contentOf d) with _ | sub
    · exact ⟨adCopyNoJsonFallback ctx, by simp [generateAdCopyAction, h, hj]⟩
    · rcases hp : parse sub with m | v
      · exact ⟨adCopyCatchFallback, by simp [generateAdCopyAction, h, hj, hp]⟩
      · exact ⟨v, by simp [generateAdCopyAction, h, hj, hp]⟩

-- ===========================================================================
-- Claim theorems: composio.ts and actions.ts
-- ===========================================================================

/-- Claim C6: `executeTool` returns the data payload of the result exactly
when the underlying call reports success; it raises the error message of
the result
(or "Tool <toolName> failed" when no non-empty message is present) when the
call reports unsuccessful, and propagates the error when the call itself
throws. -/
theorem executeTool_result_or_error (D : Type) (toolName : String)
    (call : Except String (ToolResult D)) :
    (∀ r : ToolResult D, call = Except.ok r → r.successful = true →
      executeTool toolName call = Except.ok r.data)
    ∧ (∀ r : ToolResult D, call = Except.ok r → r.successful = false →
      executeTool toolName call = Except.error (toolFailMsg toolName r.error))
    ∧ (∀ e : String, call = Except.error e →
      executeTool toolName call = Except.error e)
    ∧ (∀ d : D, executeTool toolName call = Except.ok d →
      ∃ r : ToolResult D, call = Except.ok r ∧ r.successful = true ∧ r.data = d)
    ∧ (toolFailMsg toolName none = "Tool " ++ toolName ++ " failed"
      ∧ ∀ m : String, m ≠ "" → toolFailMsg toolName (some m) = m) := by
  refine ⟨?_, ?_, ?_, ?_, ?_, ?_⟩
  · rintro r rfl hs
    simp [executeTool, hs]
  · rintro r rfl hs
    simp [executeTool, hs]
  · rintro e rfl
    rfl
  · intro d hd
    rcases call with e | r
    · simp [executeTool] at hd
    · by_cases hs : r.successful = true
      · simp [executeTool, hs] at hd
        exact ⟨r, rfl, hs, hd⟩
      · simp [executeTool, hs] at hd
  · rfl
  · intro m hm
    simp [toolFailMsg, jsOr2, jsOrS, hm]

/-- Claim C4: whenever `generateSpecsAction` falls back (the tool call
fails, or no JSON object can be extracted from the model output), it
returns the canned `AssetSpecs` whose five prompt lists have exactly the
requested lengths and are filled with the canned strings. -/
theorem generateSpecsAction_fallback_shape (c : Counts) (e : String)
    (call : Except String (ToolResult ToolData))
    (parse : String → Except String AssetSpecs)
    (h : executeTool "GEMINI_GENERATE_CONTENT" call = Except.error e
      ∨ ∃ d : ToolData, executeTool "GEMINI_GENERATE_CONTENT" call = Except.ok d
          ∧ extractJson (contentOf d) = none) :
    generateSpecsAction c call parse = Except.ok (fallbackSpecs c)
    ∧ (∃ l, (fallbackSpecs c).socialPrompts = some l
        ∧ l.length = c.portrait ∧ ∀ p ∈ l, p = "Vibrant lifestyle shot")
    ∧ (∃ l, (fallbackSpecs c).portrait34Prompts = some l
        ∧ l.length = c.portrait34 ∧ ∀ p ∈ l, p = "Elegant portrait composition")
    ∧ (∃ l, (fallbackSpecs c).videoPrompts = some l
        ∧ l.length = c.video ∧ ∀ p ∈ l, p = "Cinematic wide shot")
    ∧ (∃ l, (fallbackSpecs c).squarePrompts = some l
        ∧ l.length = c.square ∧ ∀ p ∈ l, p = "Minimalist product focus")
    ∧ (∃ l, (fallbackSpecs c).landscapePrompts = some l
        ∧ l.length = c.landscape ∧ ∀ p ∈ l, p = "Wide cinematic product shot") := by
  refine ⟨?_, replicate_shape _ _, replicate_shape _ _, replicate_shape _ _,
    replicate_shape _ _, replicate_shape _ _⟩
  rcases h with h | ⟨d, hd, hj⟩
  · simp [generateSpecsAction, h]
  · simp [generateSpecsAction, hd, hj]

/-- Claim C5: `generateSpecsAction` and `generateAdCopyAction` never
raise: for every tool-call outcome and every behaviour of `JSON.parse`
they return a value of their result type, and on a thrown tool call or a
failing parse they return their canned fallback. -/
theorem generation_actions_never_raise (c : Counts) (ctx : BrandAnalysis)
    (call1 call2 : Except String (ToolResult ToolData))
    (parse1 : String → Except String AssetSpecs)
    (parse2 : String → Except String AdCopy) :
    (∃ v, generateSpecsAction c call1 parse1 = Except.ok v)
    ∧ (∀ e, executeTool "GEMINI_GENERATE_CONTENT" call1 = Except.error e →
      generateSpecsAction c call1 parse1 = Except.ok (fallbackSpecs c))
    ∧ (∀ d sub m, executeTool "GEMINI_GENERATE_CONTENT" call1 = Except.ok d →
      extractJson (contentOf d) = some sub → parse1 sub = Except.error m →
      generateSpecsAction c call1 parse1 = Except.ok (fallbackSpecs c))
    ∧ (∃ v, generateAdCopyAction ctx call2 parse2 = Except.ok v)
    ∧ (∀ e, executeTool "GEMINI_GENERATE_CONTENT" call2 = Except.error e →
      generateAdCopyAction ctx call2 parse2 = Except.ok adCopyCatchFallback)
    ∧ (∀ d sub m, executeTool "GEMINI_GENERATE_CONTENT" call2 = Except.ok d →
      extractJson (contentOf d) = some sub → parse2 sub = Except.error m →
      generateAdCopyAction ctx call2 parse2 = Except.ok adCopyCatchFallback) := by
  refine ⟨generateSpecsAction_total c call1 parse1, ?_, ?_,
    generateAdCopyAction_total ctx call2 parse2, ?_, ?_⟩
  · intro e he
    simp [generateSpecsAction, he]
  · intro d sub m hd hj hp
    simp [generateSpecsAction, hd, hj, hp]
  · intro e he
    simp [generateAdCopyAction, he]
  · intro d sub m hd hj hp
    simp [generateAdCopyAction, hd, hj, hp]

/-- Claim C7: `analyzeBrandAction` extracts the first-brace-to-last-brace
substring of the response text (the `extractJson` model of the greedy
regex) and returns the parsed object when that substring parses; when no
such substring exists, or parsing fails, or the model call itself errors,
it fails with a flat message starting with "Brand analysis failed". -/
theorem analyzeBrandAction_best_effort (k : String)
    (visionCall : Except String (Option String))
    (parse : String → Except String BrandAnalysis) :
    (∀ t sub v, visionCall = Except.ok t → extractJson (jsOr2 t "") = some sub →
      parse sub = Except.ok v →
      analyzeBrandAction (some k) visionCall parse = Except.ok v)
    ∧ (∀ t sub m, visionCall = Except.ok t → extractJson (jsOr2 t "") = some sub →
      parse sub = Except.error m →
      ∃ msg, analyzeBrandAction (some k) visionCall parse = Except.error msg
        ∧ hasBrandFailureHead msg)
    ∧ (∀ t, visionCall = Except.ok t → extractJson (jsOr2 t "") = none →
      ∃ msg, analyzeBrandAction (some k) visionCall parse = Except.error msg
        ∧ hasBrandFailureHead msg)
    ∧ (∀ e, visionCall = Except.error e →
      ∃ msg, analyzeBrandAction (some k) visionCall parse = Except.error msg
        ∧ hasBrandFailureHead msg) := by
  refine ⟨?_, ?_, ?_, ?_⟩
  · intro t sub v ht hj hp
    simp [analyzeBrandAction, ht, hj, hp]
  · intro t sub m ht hj hp
    exact ⟨"Brand analysis failed: " ++ m ++ ". Check console for details.",
      by simp [analyzeBrandAction, ht, hj, hp], brandFailureHead_concat _ _⟩
  · intro t ht hj
    refine ⟨"Brand analysis failed: Brand analysis failed: Gemini did not return valid JSON. Check the console for the raw response.. Check console for details.",
      by simp [analyzeBrandAction, ht, hj], ?_⟩
    exact ⟨": Brand analysis failed: Gemini did not return valid JSON. Check the console for the raw response.. Check console for details.", by decide⟩
  · intro e he
    exact ⟨"Brand analysis failed: " ++ e ++ ". Check console for details.",
      by simp [analyzeBrandAction, he], brandFailureHead_concat _ _⟩

/-- Claim C8: the video pipeline is `generateVideo -> operationHandle`
then `awaitVideo -> videoUrl`: `generateVideoAction` returns the first
truthy of `operation_name`, `operationName`, `name` (the `opNameChain`
priority order) and raises "No operation name returned from Veo" when no
such field is present; `waitForVideoAction` returns the first truthy of
`url`, `video_url`, `data.url` and raises "No video URL returned" when no
such field is present. -/
theorem video_pipeline_contract
    (gcall : Except String (ToolResult VideoGenData))
    (wcall : Except String (ToolResult WaitVideoData))
    (dg : VideoGenData) (dw : WaitVideoData)
    (hg : executeTool "GEMINI_GENERATE_VIDEOS" gcall = Except.ok dg)
    (hw : executeTool "GEMINI_WAIT_FOR_VIDEO" wcall = Except.ok dw) :
    (∀ s, opNameChain dg = some s → s ≠ "" →
      generateVideoAction gcall = Except.ok s)
    ∧ ((opNameChain dg = none ∨ opNameChain dg = some "") →
      generateVideoAction gcall = Except.error "No operation name returned from Veo")
    ∧ (∀ s, waitUrlChain dw = some s → s ≠ "" →
      waitForVideoAction wcall = Except.ok s)
    ∧ ((waitUrlChain dw = none ∨ waitUrlChain dw = some "") →
      waitForVideoAction wcall = Except.error "No video URL returned") := by
  refine ⟨?_, ?_, ?_, ?_⟩
  · intro s hs hne
    simp [generateVideoAction, hg, hs, hne]
  · rintro (h | h) <;> simp [generateVideoAction, hg, h]
  · intro s hs hne
    simp [waitForVideoAction, hw, hs, hne]
  · rintro (h | h) <;> simp [waitForVideoAction, hw, h]

/-- Claim C9: `checkVideoStatusAction` is total and never raises: a thrown
tool call yields status "failed"; otherwise the status is "completed"
exactly when the result reports done (with the url taken from `video_url`,
`url`, or the video uri of the first generated sample) and "processing" in
every other case; the declared "pending" status is never returned. -/
theorem checkVideoStatus_total_shape
    (call : Except String (ToolResult VideoStatusData)) :
    ((checkVideoStatusAction call).status = VideoStatus.pending → False)
    ∧ (∀ e, executeTool "GEMINI_GET_VIDEOS_OPERATION" call = Except.error e →
      checkVideoStatusAction call = { status := VideoStatus.failed, url := none })
    ∧ (∀ d, executeTool "GEMINI_GET_VIDEOS_OPERATION" call = Except.ok d →
      ((checkVideoStatusAction call).status = VideoStatus.completed ↔ doneCondition d = true)
      ∧ (doneCondition d = true → checkVideoStatusAction call =
          { status := VideoStatus.completed, url := statusUrlChain d })
      ∧ (doneCondition d = false → checkVideoStatusAction call =
          { status := VideoStatus.processing, url := none })) := by
  refine ⟨?_, ?_, ?_⟩
  · intro hp
    rcases h : executeTool "GEMINI_GET_VIDEOS_OPERATION" call with e | d
    · simp [checkVideoStatusAction, h] at hp
    · by_cases hd : doneCondition d <;> simp [checkVideoStatusAction, h, hd] at hp
  · intro e he
    simp [checkVideoStatusAction, he]
  · intro d hd
    by_cases hdc : doneCondition d <;>
      simp [checkVideoStatusAction, hd, hdc]

-- ===========================================================================
-- Witnesses for the actions.ts claims
-- ===========================================================================

theorem executeTool_result_or_error_witness :
    executeTool "GEMINI_GENERATE_IMAGE"
        (Except.ok (ToolResult.mk true none (42 : Nat))) = Except.ok 42
    ∧ executeTool "T2" (Except.ok (ToolResult.mk false none (0 : Nat)))
        = Except.error (toolFailMsg "T2" none) := by
  constructor
  · exact (executeTool_result_or_error Nat "GEMINI_GENERATE_IMAGE"
      (Except.ok (ToolResult.mk true none 42))).1 (ToolResult.mk true none 42) rfl rfl
  · exact (executeTool_result_or_error Nat "T2"
      (Except.ok (ToolResult.mk false none 0))).2.1 (ToolResult.mk false none 0) rfl rfl

theorem generateSpecsAction_fallback_shape_witness :
    generateSpecsAction (Counts.mk 2 1 0 3 1)
        (Except.error "network down") (fun _ => Except.error "bad json")
      = Except.ok (fallbackSpecs (Counts.mk 2 1 0 3 1)) :=
  (generateSpecsAction_fallback_shape (Counts.mk 2 1 0 3 1) "network down"
    (Except.error "network down") (fun _ => Except.error "bad json")
    (Or.inl rfl)).1

theorem generation_actions_never_raise_witness :
    generateSpecsAction (Counts.mk 1 1 1 1 1)
        (Except.error "boom") (fun _ => Except.error "p")
      = Except.ok (fallbackSpecs (Counts.mk 1 1 1 1 1))
    ∧ generateAdCopyAction (BrandAnalysis.mk [] "" "" none none none)
        (Except.error "boom") (fun _ => Except.error "p")
      = Except.ok adCopyCatchFallback := by
  constructor
  · exact (generation_actions_never_raise (Counts.mk 1 1 1 1 1)
      (BrandAnalysis.mk [] "" "" none none none)
      (Except.error "boom") (Except.error "boom")
      (fun _ => Except.error "p") (fun _ => Except.error "p")).2.1 "boom" rfl
  · exact (generation_actions_never_raise (Counts.mk 1 1 1 1 1)
      (BrandAnalysis.mk [] "" "" none none none)
      (Except.error "boom") (Except.error "boom")
      (fun _ => Except.error "p") (fun _ => Except.error "p")).2.2.2.2.1 "boom" rfl

theorem analyzeBrandAction_best_effort_witness :
    analyzeBrandAction (some "key") (Except.ok (some "ok \x7ba\x7d tail"))
        (fun _ => Except.ok (BrandAnalysis.mk [] "Calm" "mug" none none none))
      = Except.ok (BrandAnalysis.mk [] "Calm" "mug" none none none) :=
  (analyzeBrandAction_best_effort "key" (Except.ok (some "ok \x7ba\x7d tail"))
    (fun _ => Except.ok (BrandAnalysis.mk [] "Calm" "mug" none none none))).1
    (some "ok \x7ba\x7d tail") "\x7ba\x7d"
    (BrandAnalysis.mk [] "Calm" "mug" none none none) rfl (by decide) rfl

theorem video_pipeline_contract_witness :
    generateVideoAction (Except.ok (ToolResult.mk true none
        (VideoGenData.mk (some "op-1") none none))) = Except.ok "op-1"
    ∧ waitForVideoAction (Except.ok (ToolResult.mk true none
        (WaitVideoData.mk (some "http-v") none none))) = Except.ok "http-v" := by
  have h := video_pipeline_contract
    (Except.ok (ToolResult.mk true none (VideoGenData.mk (some "op-1") none none)))
    (Except.ok (ToolResult.mk true none (WaitVideoData.mk (some "http-v") none none)))
    (VideoGenData.mk (some "op-1") none none)
    (WaitVideoData.mk (some "http-v") none none) rfl rfl
  exact ⟨h.1 "op-1" rfl (by decide), h.2.2.1 "http-v" rfl (by decide)⟩

theorem checkVideoStatus_total_shape_witness :
    checkVideoStatusAction
        (Except.error "x" : Except String (ToolResult VideoStatusData))
      = { status := VideoStatus.failed, url := none } :=
  (checkVideoStatus_total_shape (Except.error "x")).2.1 "x" rfl

-- ===========================================================================
-- Helper lemmas: the parallel batch
-- ===========================================================================

theorem generateAssetAction_ok_ne_empty
    (call : Except String (ToolResult ImageGenData)) (u : String)
    (h : generateAssetAction call = Except.ok u) : u ≠ "" := by
  rcases he : executeTool "GEMINI_GENERATE_IMAGE" call with e | d
  · simp [generateAssetAction, he] at h
  · rcases hc : imageUrlChain d with _ | s
    · simp [generateAssetAction, he, hc] at h
    · by_cases hs : s = ""
      · simp [generateAssetAction, he, hc, hs] at h
      · simp [generateAssetAction, he, hc, hs] at h
        rw [← h]
        exact hs

theorem waitForVideoAction_ok_ne_empty
    (call : Except String (ToolResult WaitVideoData)) (u : String)
    (h : waitForVideoAction call = Except.ok u) : u ≠ "" := by
  rcases he : executeTool "GEMINI_WAIT_FOR_VIDEO" call with e | d
  · simp [waitForVideoAction, he] at h
  · rcases hc : waitUrlChain d with _ | s
    · simp [waitForVideoAction, he, hc] at h
    · by_cases hs : s = ""
      · simp [waitForVideoAction, he, hc, hs] at h
      · simp [waitForVideoAction, he, hc, hs] at h
        rw [← h]
        exact hs

theorem taskOutcome_ok_ne_empty (o : BatchOracles) (t : TaskSpec) (u : String)
    (h : taskOutcome o t = Except.ok u) : u ≠ "" := by
  rcases t with ⟨id, prompt, k⟩
  cases k with
  | image ar =>
    exact generateAssetAction_ok_ne_empty _ u h
  | video =>
    rcases hg : generateVideoAction (o.videoGenCall id) with e | op
    · simp [taskOutcome, hg, Except.bind] at h
    · simp [taskOutcome, hg, Except.bind] at h
      exact waitForVideoAction_ok_ne_empty _ u h

theorem applyTask_eq_map (o : BatchOracles) (t : TaskSpec) (assets : List Asset) :
    applyTask o t assets = assets.map (applyTaskElem o t) := by
  rcases h : taskOutcome o t with e | u <;>
    simp [applyTask, applyTaskElem, markCompleted, markFailed, h]

theorem runTaskE_ok (o : BatchOracles) (t : TaskSpec) (assets : List Asset) :
    runTaskE o t assets = Except.ok (applyTask o t assets) := by
  rcases t with ⟨id, prompt, k⟩
  cases k with
  | image ar =>
    rcases h : generateAssetAction (o.imageCall id) with e | u <;>
      simp [runTaskE, generateImageAssetE, applyTask, taskOutcome, h]
  | video =>
    rcases h : (generateVideoAction (o.videoGenCall id)).bind
        (fun op => waitForVideoAction (o.videoWaitCall id op)) with e | u <;>
      simp [runTaskE, generateVideoAssetE, applyTask, taskOutcome, h]

theorem runBatchE_ok (o : BatchOracles) (ts : List TaskSpec) :
    ∀ assets : List Asset, runBatchE o ts assets = Except.ok (runBatch o ts assets) := by
  induction ts with
  | nil => intro assets; rfl
  | cons t ts ih =>
    intro assets
    have h1 : runBatch o (t :: ts) assets = runBatch o ts (applyTask o t assets) := rfl
    rw [h1, ← ih (applyTask o t assets)]
    simp [runBatchE, runTaskE_ok]

theorem runBatch_map (o : BatchOracles) (ts : List TaskSpec) :
    ∀ assets : List Asset, runBatch o ts assets = assets.map (applyAllElem o ts) := by
  induction ts with
  | nil =>
    intro assets
    exact (List.map_id assets).symm
  | cons t ts ih =>
    intro assets
    have h1 : runBatch o (t :: ts) assets = runBatch o ts (applyTask o t assets) := rfl
    rw [h1, ih, applyTask_eq_map, List.map_map]
    rfl

theorem applyTaskElem_unchanged (o : BatchOracles) (t : TaskSpec) (a : Asset)
    (hne : a.id ≠ t.id) : applyTaskElem o t a = a := by
  rcases h : taskOutcome o t with e | u <;>
    simp [applyTaskElem, h, completeElem, failElem, hne]

theorem applyTaskElem_failed (o : BatchOracles) (t : TaskSpec) (a : Asset)
    (e : String) (h : taskOutcome o t = Except.error e) (hid : a.id = t.id) :
    applyTaskElem o t a = { a with status := AssetStatus.failed } := by
  simp [applyTaskElem, h, failElem, hid]

theorem goodAsset_update (o : BatchOracles) (t : TaskSpec) (a : Asset)
    (hid : a.id = t.id) : goodAsset (applyTaskElem o t a) := by
  rcases h : taskOutcome o t with e | u
  · right
    simp [applyTaskElem, h, failElem, hid]
  · left
    refine ⟨?_, ?_⟩ <;> simp [applyTaskElem, h, completeElem, hid]
    exact taskOutcome_ok_ne_empty o t u h

theorem goodAsset_step (o : BatchOracles) (t : TaskSpec) (a : Asset)
    (hg : goodAsset a) : goodAsset (applyTaskElem o t a) := by
  by_cases hid : a.id = t.id
  · exact goodAsset_update o t a hid
  · rw [applyTaskElem_unchanged o t a hid]
    exact hg

theorem applyAllElem_preserves (o : BatchOracles) (ts : List TaskSpec) :
    ∀ a : Asset, goodAsset a → goodAsset (applyAllElem o ts a) := by
  induction ts with
  | nil => intro a hg; exact hg
  | cons t ts ih =>
    intro a hg
    have h1 : applyAllElem o (t :: ts) a = applyAllElem o ts (applyTaskElem o t a) := rfl
    rw [h1]
    exact ih _ (goodAsset_step o t a hg)

theorem applyAllElem_good (o : BatchOracles) (ts : List TaskSpec) :
    ∀ a : Asset, a.id ∈ ts.map TaskSpec.id → goodAsset (applyAllElem o ts a) := by
  induction ts with
  | nil => intro a ha; simp at ha
  | cons t ts ih =>
    intro a ha
    have h1 : applyAllElem o (t :: ts) a = applyAllElem o ts (applyTaskElem o t a) := rfl
    rw [h1]
    by_cases hid : a.id = t.id
    · exact applyAllElem_preserves o ts _ (goodAsset_update o t a hid)
    · rw [applyTaskElem_unchanged o t a hid]
      apply ih
      simp at ha
      rcases ha with ha | ha
      · exact absurd ha hid
      · simpa using ha

-- ===========================================================================
-- Helper lemmas: the fan-out blocks
-- ===========================================================================

theorem imageAssets_ids (n now : Nat) (ar : String) (l : List String) :
    (imageAssets n now ar l).map Asset.id = (imageTasks n now ar l).map TaskSpec.id := by
  simp only [imageAssets, imageTasks, List.map_map]
  rfl

theorem videoAssets_ids (n now : Nat) (l : List String) :
    (videoAssets n now l).map Asset.id = (videoTasks n now l).map TaskSpec.id := by
  simp only [videoAssets, videoTasks, List.map_map]
  rfl

theorem length_imageAssets (n now : Nat) (ar : String) (l : List String)
    (h : n ≤ l.length) : (imageAssets n now ar l).length = n := by
  simp [imageAssets, List.length_take]
  omega

theorem length_videoAssets (n now : Nat) (l : List String)
    (h : n ≤ l.length) : (videoAssets n now l).length = n := by
  simp [videoAssets, List.length_take]
  omega

theorem mem_imageAssets (n now : Nat) (ar : String) (l : List String)
    (a : Asset) (ha : a ∈ imageAssets n now ar l) :
    a.type = AssetType.image ∧ a.aspectRatio = ar := by
  simp only [imageAssets, List.mem_map] at ha
  rcases ha with ⟨ip, _, rfl⟩
  exact ⟨rfl, rfl⟩

theorem mem_videoAssets (n now : Nat) (l : List String)
    (a : Asset) (ha : a ∈ videoAssets n now l) :
    a.type = AssetType.video ∧ a.aspectRatio = "16:9" := by
  simp only [videoAssets, List.mem_map] at ha
  rcases ha with ⟨ip, _, rfl⟩
  exact ⟨rfl, rfl⟩

theorem mem_imageTasks (n now : Nat) (ar : String) (l : List String)
    (t : TaskSpec) (ht : t ∈ imageTasks n now ar l) : t.kind = TaskKind.image ar := by
  simp only [imageTasks, List.mem_map] at ht
  rcases ht with ⟨ip, _, rfl⟩
  rfl

theorem mem_videoTasks (n now : Nat) (l : List String)
    (t : TaskSpec) (ht : t ∈ videoTasks n now l) : t.kind = TaskKind.video := by
  simp only [videoTasks, List.mem_map] at ht
  rcases ht with ⟨ip, _, rfl⟩
  rfl

theorem length_imageTasks (n now : Nat) (ar : String) (l : List String)
    (h : n ≤ l.length) : (imageTasks n now ar l).length = n := by
  simp [imageTasks, List.length_take]
  omega

theorem length_videoTasks (n now : Nat) (l : List String)
    (h : n ≤ l.length) : (videoTasks n now l).length = n := by
  simp [videoTasks, List.length_take]
  omega

theorem countP_imageAssets (n now : Nat) (ar : String) (l : List String)
    (h : n ≤ l.length) (ar2 : String) :
    (imageAssets n now ar l).countP (pTag ar2) = if ar2 = ar then n else 0 := by
  by_cases he : ar2 = ar
  · subst he
    rw [if_pos rfl]
    have hall : (imageAssets n now ar2 l).countP (pTag ar2)
        = (imageAssets n now ar2 l).length := by
      apply List.countP_eq_length.2
      intro a ha
      obtain ⟨h1, h2⟩ := mem_imageAssets n now ar2 l a ha
      simp [pTag, h1, h2]
    rw [hall, length_imageAssets n now ar2 l h]
  · rw [if_neg he]
    apply List.countP_eq_zero.2
    intro a ha
    obtain ⟨h1, h2⟩ := mem_imageAssets n now ar l a ha
    simp [pTag, h1, h2]
    exact fun hh => he hh.symm

theorem countP_pVid_imageAssets (n now : Nat) (ar : String) (l : List String) :
    (imageAssets n now ar l).countP pVid = 0 := by
  apply List.countP_eq_zero.2
  intro a ha
  obtain ⟨h1, _⟩ := mem_imageAssets n now ar l a ha
  simp [pVid, h1]

theorem countP_pVid_videoAssets (n now : Nat) (l : List String)
    (h : n ≤ l.length) : (videoAssets n now l).countP pVid = n := by
  have hall : (videoAssets n now l).countP pVid = (videoAssets n now l).length := by
    apply List.countP_eq_length.2
    intro a ha
    obtain ⟨h1, _⟩ := mem_videoAssets n now l a ha
    simp [pVid, h1]
  rw [hall, length_videoAssets n now l h]

theorem countP_pTag_videoAssets (n now : Nat) (l : List String) (ar2 : String) :
    (videoAssets n now l).countP (pTag ar2) = 0 := by
  apply List.countP_eq_zero.2
  intro a ha
  obtain ⟨h1, _⟩ := mem_videoAssets n now l a ha
  simp [pTag, h1]

theorem countP_imageTasks (n now : Nat) (ar : String) (l : List String)
    (h : n ≤ l.length) (ar2 : String) :
    (imageTasks n now ar l).countP (pTaskTag ar2) = if ar2 = ar then n else 0 := by
  by_cases he : ar2 = ar
  · subst he
    rw [if_pos rfl]
    have hall : (imageTasks n now ar2 l).countP (pTaskTag ar2)
        = (imageTasks n now ar2 l).length := by
      apply List.countP_eq_length.2
      intro t ht
      have h1 := mem_imageTasks n now ar2 l t ht
      simp [pTaskTag, h1]
    rw [hall, length_imageTasks n now ar2 l h]
  · rw [if_neg he]
    apply List.countP_eq_zero.2
    intro t ht
    have h1 := mem_imageTasks n now ar l t ht
    simp [pTaskTag, h1]
    exact fun hh => he hh.symm

theorem countP_pTaskVid_imageTasks (n now : Nat) (ar : String) (l : List String) :
    (imageTasks n now ar l).countP pTaskVid = 0 := by
  apply List.countP_eq_zero.2
  intro t ht
  have h1 := mem_imageTasks n now ar l t ht
  simp [pTaskVid, h1]

theorem countP_pTaskVid_videoTasks (n now : Nat) (l : List String)
    (h : n ≤ l.length) : (videoTasks n now l).countP pTaskVid = n := by
  have hall : (videoTasks n now l).countP pTaskVid = (videoTasks n now l).length := by
    apply List.countP_eq_length.2
    intro t ht
    have h1 := mem_videoTasks n now l t ht
    simp [pTaskVid, h1]
  rw [hall, length_videoTasks n now l h]

theorem countP_pTaskTag_videoTasks (n now : Nat) (l : List String) (ar2 : String) :
    (videoTasks n now l).countP (pTaskTag ar2) = 0 := by
  apply List.countP_eq_zero.2
  intro t ht
  have h1 := mem_videoTasks n now l t ht
  simp [pTaskTag, h1]

theorem socialBlockE_eq (c : Counts) (specs : AssetSpecs) (now : Nat)
    (ls : List String) (hs : specs.socialPrompts = some ls) :
    socialBlockE c specs now = Except.ok
      (imageAssets c.portrait now "9:16" ls, imageTasks c.portrait now "9:16" ls) := by
  unfold socialBlockE
  by_cases h0 : 0 < c.portrait
  · rw [if_pos h0, hs]
  · rw [if_neg h0]
    have hz : c.portrait = 0 := by omega
    rw [hz]
    rfl

theorem squareBlockE_eq (c : Counts) (specs : AssetSpecs) (now : Nat)
    (lsq : List String) (hsq : specs.squarePrompts = some lsq) :
    squareBlockE c specs now = Except.ok
      (imageAssets c.square now "1:1" lsq, imageTasks c.square now "1:1" lsq) := by
  unfold squareBlockE
  by_cases h0 : 0 < c.square
  · rw [if_pos h0, hsq]
  · rw [if_neg h0]
    have hz : c.square = 0 := by omega
    rw [hz]
    rfl

theorem portrait34Block_eq (c : Counts) (specs : AssetSpecs) (now : Nat)
    (l34 : List String) (h34 : specs.portrait34Prompts = some l34) :
    portrait34Block c specs now =
      (imageAssets c.portrait34 now "3:4" l34, imageTasks c.portrait34 now "3:4" l34) := by
  unfold portrait34Block
  by_cases h0 : 0 < c.portrait34
  · rw [if_pos h0, h34]
    rfl
  · rw [if_neg h0]
    have hz : c.portrait34 = 0 := by omega
    rw [hz]
    rfl

theorem landscapeBlock_eq (c : Counts) (specs : AssetSpecs) (now : Nat)
    (lla : List String) (hla : specs.landscapePrompts = some lla) :
    landscapeBlock c specs now =
      (imageAssets c.landscape now "16:9" lla, imageTasks c.landscape now "16:9" lla) := by
  unfold landscapeBlock
  by_cases h0 : 0 < c.landscape
  · rw [if_pos h0, hla]
    rfl
  · rw [if_neg h0]
    have hz : c.landscape = 0 := by omega
    rw [hz]
    rfl

theorem videoBlock_eq (c : Counts) (specs : AssetSpecs) (now : Nat)
    (lv : List String) (hv : specs.videoPrompts = some lv) :
    videoBlock c specs now =
      (videoAssets c.video now lv, videoTasks c.video now lv) := by
  unfold videoBlock
  by_cases h0 : 0 < c.video
  · rw [if_pos h0, hv]
    rfl
  · rw [if_neg h0]
    have hz : c.video = 0 := by omega
    rw [hz]
    rfl

theorem socialBlockE_ids (c : Counts) (specs : AssetSpecs) (now : Nat)
    (p : List Asset × List TaskSpec) (h : socialBlockE c specs now = Except.ok p) :
    p.1.map Asset.id = p.2.map TaskSpec.id := by
  unfold socialBlockE at h
  split at h
  · split at h
    · cases h
    · cases h
      exact imageAssets_ids _ _ _ _
  · cases h
    rfl

theorem squareBlockE_ids (c : Counts) (specs : AssetSpecs) (now : Nat)
    (p : List Asset × List TaskSpec) (h : squareBlockE c specs now = Except.ok p) :
    p.1.map Asset.id = p.2.map TaskSpec.id := by
  unfold squareBlockE at h
  split at h
  · split at h
    · cases h
    · cases h
      exact imageAssets_ids _ _ _ _
  · cases h
    rfl

theorem portrait34Block_ids (c : Counts) (specs : AssetSpecs) (now : Nat) :
    (portrait34Block c specs now).1.map Asset.id
      = (portrait34Block c specs now).2.map TaskSpec.id := by
  unfold portrait34Block
  split
  · exact imageAssets_ids _ _ _ _
  · rfl

theorem landscapeBlock_ids (c : Counts) (specs : AssetSpecs) (now : Nat) :
    (landscapeBlock c specs now).1.map Asset.id
      = (landscapeBlock c specs now).2.map TaskSpec.id := by
  unfold landscapeBlock
  split
  · exact imageAssets_ids _ _ _ _
  · rfl

theorem videoBlock_ids (c : Counts) (specs : AssetSpecs) (now : Nat) :
    (videoBlock c specs now).1.map Asset.id
      = (videoBlock c specs now).2.map TaskSpec.id := by
  unfold videoBlock
  split
  · exact videoAssets_ids _ _ _
  · rfl

theorem buildAssets_ids (c : Counts) (specs : AssetSpecs) (now : Nat)
    (A : List Asset) (T : List TaskSpec)
    (hb : buildAssets c specs now = Except.ok (A, T)) :
    A.map Asset.id = T.map TaskSpec.id := by
  unfold buildAssets at hb
  rcases hs : socialBlockE c specs now with e | ps
  · rw [hs] at hb
    cases hb
  · rw [hs] at hb
    rcases hq : squareBlockE c specs now with e | pq
    · rw [hq] at hb
      cases hb
    · rw [hq] at hb
      cases hb
      simp only [List.map_append]
      rw [socialBlockE_ids c specs now ps hs, squareBlockE_ids c specs now pq hq,
        portrait34Block_ids c specs now, landscapeBlock_ids c specs now,
        videoBlock_ids c specs now]

theorem countP_imageAssets_ne (n now : Nat) (ar : String) (l : List String)
    (ar2 : String) (hne : ar2 ≠ ar) :
    (imageAssets n now ar l).countP (pTag ar2) = 0 := by
  apply List.countP_eq_zero.2
  intro a ha
  obtain ⟨h1, h2⟩ := mem_imageAssets n now ar l a ha
  simp [pTag, h1, h2]
  exact fun hh => hne hh.symm

theorem countP_imageAssets_self (n now : Nat) (ar : String) (l : List String)
    (h : n ≤ l.length) : (imageAssets n now ar l).countP (pTag ar) = n := by
  rw [countP_imageAssets n now ar l h ar, if_pos rfl]

theorem countP_imageTasks_ne (n now : Nat) (ar : String) (l : List String)
    (ar2 : String) (hne : ar2 ≠ ar) :
    (imageTasks n now ar l).countP (pTaskTag ar2) = 0 := by
  apply List.countP_eq_zero.2
  intro t ht
  have h1 := mem_imageTasks n now ar l t ht
  simp [pTaskTag, h1]
  exact fun hh => hne hh.symm

theorem countP_imageTasks_self (n now : Nat) (ar : String) (l : List String)
    (h : n ≤ l.length) : (imageTasks n now ar l).countP (pTaskTag ar) = n := by
  rw [countP_imageTasks n now ar l h ar, if_pos rfl]

theorem buildAssets_eq (c : Counts) (specs : AssetSpecs) (now : Nat)
    (ls l34 lsq lla lv : List String)
    (hs : specs.socialPrompts = some ls)
    (h34 : specs.portrait34Prompts = some l34)
    (hsq : specs.squarePrompts = some lsq)
    (hla : specs.landscapePrompts = some lla)
    (hv : specs.videoPrompts = some lv) :
    buildAssets c specs now = Except.ok
      (imageAssets c.portrait now "9:16" ls ++ imageAssets c.portrait34 now "3:4" l34
        ++ imageAssets c.square now "1:1" lsq ++ imageAssets c.landscape now "16:9" lla
        ++ videoAssets c.video now lv,
       imageTasks c.portrait now "9:16" ls ++ imageTasks c.portrait34 now "3:4" l34
        ++ imageTasks c.square now "1:1" lsq ++ imageTasks c.landscape now "16:9" lla
        ++ videoTasks c.video now lv) := by
  unfold buildAssets
  rw [socialBlockE_eq c specs now ls hs, squareBlockE_eq c specs now lsq hsq,
    portrait34Block_eq c specs now l34 h34, landscapeBlock_eq c specs now lla hla,
    videoBlock_eq c specs now lv hv]

-- ===========================================================================
-- Claim theorems: page.tsx
-- ===========================================================================

/-- Claim C1: every per-asset task handles its own error, so the parallel
batch always resolves, for every combination of succeeding and failing
task outcomes (`runBatchE` equals `Except.ok` of the total `runBatch`
value); and a failing task only sets the status of its own asset to "failed",
leaving every asset with a different id unchanged (as does any task, so
sibling results are never affected). -/
theorem batch_partial_failure_isolated (o : BatchOracles) (ts : List TaskSpec)
    (assets : List Asset) :
    runBatchE o ts assets = Except.ok (runBatch o ts assets)
    ∧ (∀ t : TaskSpec, ∀ e : String, taskOutcome o t = Except.error e → ∀ a : Asset,
        (a.id = t.id → applyTaskElem o t a = { a with status := AssetStatus.failed })
        ∧ (a.id ≠ t.id → applyTaskElem o t a = a))
    ∧ (∀ t : TaskSpec, ∀ a : Asset, a.id ≠ t.id → applyTaskElem o t a = a) := by
  refine ⟨runBatchE_ok o ts assets, ?_, ?_⟩
  · intro t e he a
    exact ⟨fun hid => applyTaskElem_failed o t a e he hid,
      fun hne => applyTaskElem_unchanged o t a hne⟩
  · intro t a hne
    exact applyTaskElem_unchanged o t a hne

theorem batch_partial_failure_isolated_witness :
    applyTaskElem
        (BatchOracles.mk (fun _ => Except.error "down") (fun _ => Except.error "down")
          (fun _ _ => Except.error "down"))
        (TaskSpec.mk "id1" "p" (TaskKind.image "9:16"))
        (Asset.mk "id1" AssetType.image "9:16" AssetStatus.generating "p" "")
      = Asset.mk "id1" AssetType.image "9:16" AssetStatus.failed "p" "" :=
  ((batch_partial_failure_isolated
    (BatchOracles.mk (fun _ => Except.error "down") (fun _ => Except.error "down")
      (fun _ _ => Except.error "down")) [] []).2.1
    (TaskSpec.mk "id1" "p" (TaskKind.image "9:16")) "down" rfl
    (Asset.mk "id1" AssetType.image "9:16" AssetStatus.generating "p" "")).1 rfl

/-- Claim C3: for all non-negative counts and specs whose prompt lists
contain at least the corresponding count of prompts, the batch construction
succeeds and contains exactly count-many assets and generation requests of
each shape: images tagged "9:16", "3:4", "1:1", "16:9" respectively, and
videos (all tagged "16:9"); a zero count contributes none, and the asset
and request totals are the sum of the counts. -/
theorem fanout_counts (c : Counts) (specs : AssetSpecs) (now : Nat)
    (ls l34 lsq lla lv : List String)
    (hs : specs.socialPrompts = some ls) (hls : c.portrait ≤ ls.length)
    (h34 : specs.portrait34Prompts = some l34) (hl34 : c.portrait34 ≤ l34.length)
    (hsq : specs.squarePrompts = some lsq) (hlsq : c.square ≤ lsq.length)
    (hla : specs.landscapePrompts = some lla) (hlla : c.landscape ≤ lla.length)
    (hv : specs.videoPrompts = some lv) (hlv : c.video ≤ lv.length) :
    ∃ A T, buildAssets c specs now = Except.ok (A, T)
      ∧ A.countP (pTag "9:16") = c.portrait
      ∧ A.countP (pTag "3:4") = c.portrait34
      ∧ A.countP (pTag "1:1") = c.square
      ∧ A.countP (pTag "16:9") = c.landscape
      ∧ A.countP pVid = c.video
      ∧ A.length = c.portrait + c.portrait34 + c.square + c.landscape + c.video
      ∧ (∀ a ∈ A, a.type = AssetType.video → a.aspectRatio = "16:9")
      ∧ T.countP (pTaskTag "9:16") = c.portrait
      ∧ T.countP (pTaskTag "3:4") = c.portrait34
      ∧ T.countP (pTaskTag "1:1") = c.square
      ∧ T.countP (pTaskTag "16:9") = c.landscape
      ∧ T.countP pTaskVid = c.video
      ∧ T.length = c.portrait + c.portrait34 + c.square + c.landscape + c.video := by
  refine ⟨_, _, buildAssets_eq c specs now ls l34 lsq lla lv hs h34 hsq hla hv,
    ?_, ?_, ?_, ?_, ?_, ?_, ?_, ?_, ?_, ?_, ?_, ?_, ?_⟩
  · simp only [List.countP_append,
      countP_imageAssets_self c.portrait now "9:16" ls hls,
      countP_imageAssets_ne c.portrait34 now "3:4" l34 "9:16" (by decide),
      countP_imageAssets_ne c.square now "1:1" lsq "9:16" (by decide),
      countP_imageAssets_ne c.landscape now "16:9" lla "9:16" (by decide),
      countP_pTag_videoAssets c.video now lv "9:16"]
    omega
  · simp only [List.countP_append,
      countP_imageAssets_ne c.portrait now "9:16" ls "3:4" (by decide),
      countP_imageAssets_self c.portrait34 now "3:4" l34 hl34,
      countP_imageAssets_ne c.square now "1:1" lsq "3:4" (by decide),
      countP_imageAssets_ne c.landscape now "16:9" lla "3:4" (by decide),
      countP_pTag_videoAssets c.video now lv "3:4"]
    omega
  · simp only [List.countP_append,
      countP_imageAssets_ne c.portrait now "9:16" ls "1:1" (by decide),
      countP_imageAssets_ne c.portrait34 now "3:4" l34 "1:1" (by decide),
      countP_imageAssets_self c.square now "1:1" lsq hlsq,
      countP_imageAssets_ne c.landscape now "16:9" lla "1:1" (by decide),
      countP_pTag_videoAssets c.video now lv "1:1"]
    omega
  · simp only [List.countP_append,
      countP_imageAssets_ne c.portrait now "9:16" ls "16:9" (by decide),
      countP_imageAssets_ne c.portrait34 now "3:4" l34 "16:9" (by decide),
      countP_imageAssets_ne c.square now "1:1" lsq "16:9" (by decide),
      countP_imageAssets_self c.landscape now "16:9" lla hlla,
      countP_pTag_videoAssets c.video now lv "16:9"]
    omega
  · simp only [List.countP_append,
      countP_pVid_imageAssets c.portrait now "9:16" ls,
      countP_pVid_imageAssets c.portrait34 now "3:4" l34,
      countP_pVid_imageAssets c.square now "1:1" lsq,
      countP_pVid_imageAssets c.landscape now "16:9" lla,
      countP_pVid_videoAssets c.video now lv hlv]
    omega
  · simp only [List.length_append,
      length_imageAssets c.portrait now "9:16" ls hls,
      length_imageAssets c.portrait34 now "3:4" l34 hl34,
      length_imageAssets c.square now "1:1" lsq hlsq,
      length_imageAssets c.landscape now "16:9" lla hlla,
      length_videoAssets c.video now lv hlv]
  · intro a ha hvid
    simp only [List.mem_append] at ha
    rcases ha with ((((ha | ha) | ha) | ha) | ha)
    · obtain ⟨h1, _⟩ := mem_imageAssets _ _ _ _ a ha
      rw [h1] at hvid
      cases hvid
    · obtain ⟨h1, _⟩ := mem_imageAssets _ _ _ _ a ha
      rw [h1] at hvid
      cases hvid
    · obtain ⟨h1, _⟩ := mem_imageAssets _ _ _ _ a ha
      rw [h1] at hvid
      cases hvid
    · obtain ⟨h1, _⟩ := mem_imageAssets _ _ _ _ a ha
      rw [h1] at hvid
      cases hvid
    · exact (mem_videoAssets _ _ _ a ha).2
  · simp only [List.countP_append,
      countP_imageTasks_self c.portrait now "9:16" ls hls,
      countP_imageTasks_ne c.portrait34 now "3:4" l34 "9:16" (by decide),
      countP_imageTasks_ne c.square now "1:1" lsq "9:16" (by decide),
      countP_imageTasks_ne c.landscape now "16:9" lla "9:16" (by decide),
      countP_pTaskTag_videoTasks c.video now lv "9:16"]
    omega
  · simp only [List.countP_append,
      countP_imageTasks_ne c.portrait now "9:16" ls "3:4" (by decide),
      countP_imageTasks_self c.portrait34 now "3:4" l34 hl34,
      countP_imageTasks_ne c.square now "1:1" lsq "3:4" (by decide),
      countP_imageTasks_ne c.landscape now "16:9" lla "3:4" (by decide),
      countP_pTaskTag_videoTasks c.video now lv "3:4"]
    omega
  · simp only [List.countP_append,
      countP_imageTasks_ne c.portrait now "9:16" ls "1:1" (by decide),
      countP_imageTasks_ne c.portrait34 now "3:4" l34 "1:1" (by decide),
      countP_imageTasks_self c.square now "1:1" lsq hlsq,
      countP_imageTasks_ne c.landscape now "16:9" lla "1:1" (by decide),
      countP_pTaskTag_videoTasks c.video now lv "1:1"]
    omega
  · simp only [List.countP_append,
      countP_imageTasks_ne c.portrait now "9:16" ls "16:9" (by decide),
      countP_imageTasks_ne c.portrait34 now "3:4" l34 "16:9" (by decide),
      countP_imageTasks_ne c.square now "1:1" lsq "16:9" (by decide),
      countP_imageTasks_self c.landscape now "16:9" lla hlla,
      countP_pTaskTag_videoTasks c.video now lv "16:9"]
    omega
  · simp only [List.countP_append,
      countP_pTaskVid_imageTasks c.portrait now "9:16" ls,
      countP_pTaskVid_imageTasks c.portrait34 now "3:4" l34,
      countP_pTaskVid_imageTasks c.square now "1:1" lsq,
      countP_pTaskVid_imageTasks c.landscape now "16:9" lla,
      countP_pTaskVid_videoTasks c.video now lv hlv]
    omega
  · simp only [List.length_append,
      length_imageTasks c.portrait now "9:16" ls hls,
      length_imageTasks c.portrait34 now "3:4" l34 hl34,
      length_imageTasks c.square now "1:1" lsq hlsq,
      length_imageTasks c.landscape now "16:9" lla hlla,
      length_videoTasks c.video now lv hlv]

theorem fanout_counts_witness :
    ∃ A T, buildAssets (Counts.mk 1 1 1 1 1)
        (AssetSpecs.mk (some ["s"]) (some ["t"]) (some ["v"]) (some ["q"]) (some ["l"])) 3
        = Except.ok (A, T)
      ∧ A.countP (pTag "9:16") = 1 ∧ A.countP pVid = 1 ∧ A.length = 5 := by
  obtain ⟨A, T, h1, h2, _, _, _, h6, h7, _⟩ :=
    fanout_counts (Counts.mk 1 1 1 1 1)
      (AssetSpecs.mk (some ["s"]) (some ["t"]) (some ["v"]) (some ["q"]) (some ["l"])) 3
      ["s"] ["t"] ["q"] ["l"] ["v"]
      rfl (by decide) rfl (by decide) rfl (by decide) rfl (by decide) rfl (by decide)
  exact ⟨A, T, h1, h2, h6, h7⟩

/-- Claim C10: after the parallel batch resolves, no asset remains in the
"generating" status: every asset of the resolved batch is either
"completed" with a non-empty url taken from its generation result, or
"failed". -/
theorem batch_final_statuses (o : BatchOracles) (c : Counts)
    (specs : AssetSpecs) (now : Nat) (A : List Asset) (T : List TaskSpec)
    (hb : buildAssets c specs now = Except.ok (A, T)) :
    ∀ a ∈ runBatch o T A,
      (a.status = AssetStatus.completed ∧ a.url ≠ "") ∨ a.status = AssetStatus.failed := by
  intro a ha
  rw [runBatch_map o T A] at ha
  rcases List.mem_map.1 ha with ⟨b, hbA, rfl⟩
  have hid : b.id ∈ T.map TaskSpec.id := by
    rw [← buildAssets_ids c specs now A T hb]
    exact List.mem_map_of_mem Asset.id hbA
  exact applyAllElem_good o T b hid

theorem batch_final_statuses_witness :
    ((Asset.mk "image-9:16-7-0" AssetType.image "9:16" AssetStatus.failed "p" "").status
        = AssetStatus.completed
      ∧ (Asset.mk "image-9:16-7-0" AssetType.image "9:16" AssetStatus.failed "p" "").url ≠ "")
    ∨ (Asset.mk "image-9:16-7-0" AssetType.image "9:16" AssetStatus.failed "p" "").status
        = AssetStatus.failed :=
  batch_final_statuses
    (BatchOracles.mk (fun _ => Except.error "down") (fun _ => Except.error "down")
      (fun _ _ => Except.error "down"))
    (Counts.mk 1 0 0 0 0) (AssetSpecs.mk (some ["p"]) none none none none) 7
    [Asset.mk "image-9:16-7-0" AssetType.image "9:16" AssetStatus.generating "p" ""]
    [TaskSpec.mk "image-9:16-7-0" "p" (TaskKind.image "9:16")]
    rfl
    (Asset.mk "image-9:16-7-0" AssetType.image "9:16" AssetStatus.failed "p" "")
    (by decide)

/-- Claim C2: the progress indicator is the four-state flag `Phase`; on
every run of `handleGenerate` the `setCurrentPhase` trace is: empty when
the upload guard fails (state unchanged), exactly
[analyzing, generating, completed] on a successful run (final phase
"completed", no error), and otherwise a proper prefix of that progression
followed by the error exit to "idle" with an error message set — so the
phase always moves through analyzing, generating, completed in that order
and every error exits the progression. -/
theorem handleGenerate_phase_progression (s : UIState) (o : RunOracles) :
    (s.uploadedImagesCount = 0 ∧ (handleGenerate s o).2 = []
      ∧ (handleGenerate s o).1.currentPhase = s.currentPhase)
    ∨ ((handleGenerate s o).2 = [Phase.analyzing, Phase.generating, Phase.completed]
      ∧ (handleGenerate s o).1.currentPhase = Phase.completed
      ∧ (handleGenerate s o).1.error = none)
    ∨ (((handleGenerate s o).2 = [Phase.analyzing, Phase.idle]
        ∨ (handleGenerate s o).2 = [Phase.analyzing, Phase.generating, Phase.idle])
      ∧ (handleGenerate s o).1.currentPhase = Phase.idle
      ∧ (handleGenerate s o).1.error.isSome = true) := by
  by_cases h0 : s.uploadedImagesCount = 0
  · left
    simp [handleGenerate, h0]
  · rcases hf : o.fileRead with e | img
    · right; right
      simp [handleGenerate, h0, hf, catchExit]
    · rcases ha : analyzeBrandAction o.apiKey o.visionCall o.brandParse with e | ctx
      · right; right
        simp [handleGenerate, h0, hf, ha, catchExit]
      · rcases hsp : generateSpecsAction (countsOf s) o.specsCall o.specsParse with e | specs
        · right; right
          simp [handleGenerate, h0, hf, ha, hsp, catchExit]
        · rcases hb : buildAssets (countsOf s) specs o.now with e | pair
          · right; right
            simp [handleGenerate, h0, hf, ha, hsp, hb, catchExit]
          · have hr := runBatchE_ok o.batch pair.2 pair.1
            rcases hc : generateAdCopyAction ctx o.adCopyCall o.adCopyParse with e | ac
            · right; left
              simp [handleGenerate, h0, hf, ha, hsp, hb, hr, hc]
            · right; left
              simp [handleGenerate, h0, hf, ha, hsp, hb, hr, hc]
